import Mathlib

/-!
Shallow embedding of `main.py` of the Gmail_Sumary repository: the
extraction / normalization / ingestion pipeline.  Pure computations
(phone formatting, response parsing, row fan-out, pagination folding,
the per-message orchestration step) are translated into executable Lean
definitions; external collaborators (the JSON library, the Gmail and
Sheets APIs, the Ollama model) appear as explicit oracle parameters.
-/

/-- Python values as produced by `json.loads` (plus `None`): the shapes
relevant to `parse_ollama_response`.  JSON numbers are modelled as
integers; no claim depends on numeric field content. -/
inductive PyVal where
  | str (s : String)
  | int (n : Int)
  | bool (b : Bool)
  | null
  | list (xs : List PyVal)
  | dict (kvs : List (String × PyVal))

/-- Python truthiness (`if value:`) for the modelled values. -/
def pyTruthy : PyVal → Bool
  | PyVal.str s => s ≠ ""
  | PyVal.int n => n ≠ 0
  | PyVal.bool b => b
  | PyVal.null => false
  | PyVal.list xs => !xs.isEmpty
  | PyVal.dict kvs => !kvs.isEmpty

mutual

/-- Python `repr` of a modelled value (string escaping inside reprs is
not modelled; no claim depends on it). -/
def pyRepr : PyVal → String
  | PyVal.str s => "\x27" ++ s ++ "\x27"
  | PyVal.int n => toString n
  | PyVal.bool b => if b then "True" else "False"
  | PyVal.null => "None"
  | PyVal.list xs => "[" ++ pyReprListJoin xs ++ "]"
  | PyVal.dict kvs => "\x7b" ++ pyReprDictJoin kvs ++ "\x7d"

/-- Comma-joined reprs of a list's elements. -/
def pyReprListJoin : List PyVal → String
  | [] => ""
  | [x] => pyRepr x
  | x :: y :: xs => pyRepr x ++ ", " ++ pyReprListJoin (y :: xs)

/-- Comma-joined `key: value` reprs of a dict's entries. -/
def pyReprDictJoin : List (String × PyVal) → String
  | [] => ""
  | [(k, v)] => "\x27" ++ k ++ "\x27: " ++ pyRepr v
  | (k, v) :: e :: xs => "\x27" ++ k ++ "\x27: " ++ pyRepr v ++ ", " ++ pyReprDictJoin (e :: xs)

end

/-- Python `str()` of a modelled value. -/
def pyStr : PyVal → String
  | PyVal.str s => s
  | v => pyRepr v

/-- Python `d.get(k, default)` on a modelled dict entry list. -/
def pyGetD (kvs : List (String × PyVal)) (k : String) (d : PyVal) : PyVal :=
  match List.lookup k kvs with
  | some v => v
  | none => d

/-- Python `str.isdigit` restricted to ASCII digits, matching the digits the
pipeline actually handles. -/
def digitsOf (phone : String) : List Char :=
  phone.toList.filter Char.isDigit

/-- Python `str.strip()`: drop leading and trailing whitespace. -/
def pyStrip (s : String) : String :=
  String.mk (((s.toList.dropWhile Char.isWhitespace).reverse.dropWhile Char.isWhitespace).reverse)

/-- Python `str.lower()`. -/
def pyLower (s : String) : String :=
  String.mk (s.toList.map Char.toLower)

/-- Python slicing `s[:n]`. -/
def pyTake (s : String) (n : Nat) : String :=
  String.mk (s.toList.take n)

/-- Substring test on character lists: `p` occurs contiguously in the
second argument. -/
def hasSubstrAux (p : List Char) : List Char → Bool
  | [] => decide (p = [])
  | c :: cs => p.isPrefixOf (c :: cs) || hasSubstrAux p cs

/-- Python `sub in s` substring containment. -/
def hasSubstr (s sub : String) : Bool :=
  hasSubstrAux sub.toList s.toList

/-- The greedy regex `\x7b.*\x7d` (DOTALL) match of `re.search` in
`parse_ollama_response`: the span from the first opening brace to the
last closing brace, provided some closing brace follows the first
opening brace.  `none` when no such span exists. -/
def extractJson (s : String) : Option String :=
  let fromBrace := s.toList.dropWhile (fun c => c ≠ '\x7b')
  match fromBrace with
  | [] => none
  | _ :: rest =>
      if rest.contains '\x7d' then
        some (String.mk ((fromBrace.reverse.dropWhile (fun c => c ≠ '\x7d')).reverse))
      else none

/-- A cleaned contact as built by `parse_ollama_response`. -/
structure Contact where
  name : String
  email : String
  phone : String
deriving DecidableEq, Repr

/-- The validated record returned by `parse_ollama_response`. -/
structure ExtractionRecord where
  summary : String
  contacts : List Contact
  assistance_type : String
deriving DecidableEq, Repr

/-- Keywords mapped to `requesting` by the standardization step. -/
def requestingKeywords : List String := ["request", "need", "looking", "seeking"]

/-- Keywords mapped to `providing` by the standardization step. -/
def providingKeywords : List String := ["provid", "offer", "available", "help"]

/-- The `assistance_type` standardization of `parse_ollama_response`:
keep the value if it is exactly `requesting` or `providing`, otherwise
map by keyword containment, requesting keywords checked first, falling
back to `unknown`. -/
def standardizeAssistance (a : String) : String :=
  if a == "requesting" || a == "providing" then a
  else if requestingKeywords.any (fun w => hasSubstr a w) then "requesting"
  else if providingKeywords.any (fun w => hasSubstr a w) then "providing"
  else "unknown"

/-- One cleaned contact field:
`str(contact.get(k, '')).strip() if contact.get(k) else ''`. -/
def cleanField (kvs : List (String × PyVal)) (k : String) : String :=
  let v := pyGetD kvs k PyVal.null
  if pyTruthy v then pyStrip (pyStr v) else ""

/-- The contact-cleaning loop of `parse_ollama_response`: keep only dict
entries, clean the three fields, and retain a contact only when at least
one field is non-empty. -/
def cleanContacts : PyVal → List Contact
  | PyVal.list items =>
      items.filterMap (fun it =>
        match it with
        | PyVal.dict kvs =>
            let c : Contact := ⟨cleanField kvs "name", cleanField kvs "email", cleanField kvs "phone"⟩
            if c.name ≠ "" ∨ c.email ≠ "" ∨ c.phone ≠ "" then some c else none
        | _ => none)
  | _ => []

/-- Python `.strip()` is only available on strings: any other value raises
`AttributeError`, which the surrounding `except` turns into the
fallback record. -/
def asStr : PyVal → Option String
  | PyVal.str s => some s
  | _ => none

/-- The `try` body of `parse_ollama_response` applied to a successfully
extracted JSON object: `none` is any raised error (non-dict value,
non-string `summary` or `assistance_type`). -/
def recordOfDict (v : PyVal) : Option ExtractionRecord :=
  match v with
  | PyVal.dict kvs =>
      match asStr (pyGetD kvs "summary" (PyVal.str "No summary provided")),
            asStr (pyGetD kvs "assistance_type" (PyVal.str "unknown")) with
      | some s, some a =>
          some ⟨pyStrip s, cleanContacts (pyGetD kvs "contacts" (PyVal.list [])),
                standardizeAssistance (pyLower (pyStrip a))⟩
      | _, _ => none
  | _ => none

/-- The whole `try` body: regex extraction, `json.loads` (the oracle
`loads`), then validation; `none` is any failure path. -/
def parseAttempt (loads : String → Option PyVal) (out : String) : Option ExtractionRecord :=
  match extractJson out with
  | none => none
  | some js =>
      match loads js with
      | none => none
      | some v => recordOfDict v

/-- The fallback record built after any parsing failure. -/
def fallbackRecord (out : String) : ExtractionRecord :=
  ⟨"Parsing failed - Raw output: " ++ pyTake out 100, [], "unknown"⟩

/-- The function `parse_ollama_response`, parameterized by the `json.loads` oracle:
on any failure it returns the fallback record, never raising. -/
def parse_ollama_response (loads : String → Option PyVal) (out : String) : ExtractionRecord :=
  match parseAttempt loads out with
  | some r => r
  | none => fallbackRecord out

/-- The formula-trigger characters checked before storing a cell. -/
def formulaTriggers : List Char := ['=', '+', '-', '@']

/-- Whether a string's first character is a formula trigger
(`value and value[0] in ['=', '+', '-', '@']`). -/
def startsWithTrigger (s : String) : Bool :=
  match s.toList with
  | [] => false
  | c :: _ => formulaTriggers.contains c

/-- The formula-injection guard applied (inline in `main.py`, with
identical code at each site) to summary, name, email and unformatted
phone values: prepend an apostrophe when the first character is a
formula trigger. -/
def sanitizeCell (s : String) : String :=
  if startsWithTrigger s then "\x27" ++ s else s

/-- The function `format_phone_number`: strip non-digits, then format 10-digit,
11-digit-leading-1 and 7-digit numbers; otherwise return the trimmed
original guarded against formula injection.  Empty input returns the
empty string (`if not phone`). -/
def format_phone_number (phone : String) : String :=
  if phone = "" then ""
  else if (digitsOf phone).length = 10 then
    "(" ++ String.mk ((digitsOf phone).take 3) ++ ") "
      ++ String.mk (((digitsOf phone).drop 3).take 3)
      ++ "-" ++ String.mk ((digitsOf phone).drop 6)
  else if (digitsOf phone).length = 11 ∧ (digitsOf phone).head? = some '1' then
    "(" ++ String.mk (((digitsOf phone).drop 1).take 3) ++ ") "
      ++ String.mk ((((digitsOf phone).drop 1).drop 3).take 3)
      ++ "-" ++ String.mk (((digitsOf phone).drop 1).drop 6)
  else if (digitsOf phone).length = 7 then
    String.mk ((digitsOf phone).take 3) ++ "-" ++ String.mk ((digitsOf phone).drop 3)
  else
    sanitizeCell (pyStrip phone)

/-- The `email_data` dict assembled in `main` and consumed by
`append_single_email_to_sheet`. -/
structure EmailData where
  contacts : List Contact
  summary : String
  assistance_type : String
  sent_day : String
  email_link : String
deriving DecidableEq, Repr

/-- The `values` matrix built by `append_single_email_to_sheet` and
sent to the Sheets append call: one row per contact (fields trimmed,
phone formatted, injection-guarded), or a single contact-less row when
the record has no contacts.  The row order is the fixed 7-column
schema Name, Email, Phone, Summary, AssistanceType, SentDate,
EmailLink. -/
def append_single_email_to_sheet_values (d : EmailData) : List (List String) :=
  let summary := sanitizeCell d.summary
  if !d.contacts.isEmpty then
    d.contacts.map (fun ct =>
      let contact_name := sanitizeCell (pyStrip ct.name)
      let contact_email := sanitizeCell (pyStrip ct.email)
      let contact_phone := format_phone_number (pyStrip ct.phone)
      [contact_name, contact_email, contact_phone, summary,
       d.assistance_type, d.sent_day, d.email_link])
  else
    [["", "", "", summary, d.assistance_type, d.sent_day, d.email_link]]

/-- One page response of the Gmail listing collaborator: either a page
of message identifiers with an optional continuation token, or a raised
error. -/
inductive PageResult where
  | ok (msgs : List String) (next : Option String)
  | err
deriving Repr

/-- The accumulation loop of `get_all_unread_messages` over the trace
of successive collaborator responses: extend the accumulator with each
page, stop when a page carries no continuation token, and on an error
stop early returning what was accumulated so far. -/
def getAllUnreadGo : List PageResult → List String → List String
  | [], acc => acc
  | PageResult.err :: _, acc => acc
  | PageResult.ok msgs next :: rest, acc =>
      let acc2 := acc ++ msgs
      match next with
      | none => acc2
      | some _ => getAllUnreadGo rest acc2

/-- The function `get_all_unread_messages`, with the paginated collaborator modelled
as the trace of its successive responses. -/
def get_all_unread_messages (responses : List PageResult) : List String :=
  getAllUnreadGo responses []

/-- The `MARK_AS_READ_AFTER_PROCESSING` configuration constant. -/
def MARK_AS_READ_AFTER_PROCESSING : Bool := true

/-- The five per-run counters of `main`. -/
structure Counters where
  successful_processed : Nat
  failed_processed : Nat
  emails_marked_read : Nat
  sheet_updates_successful : Nat
  sheet_updates_failed : Nat
deriving DecidableEq, Repr

/-- The environment one loop iteration of `main` observes for one
message: which collaborator calls raise, the fetched message's unread
flag and extracted content, the raw model output with the JSON oracle,
and the boolean results of the sheet append and the mark-as-read call
(both of which catch their own errors). -/
structure MsgEnv where
  msgId : String
  fetchRaises : Bool
  unread : Bool
  extractRaises : Bool
  content : String
  sentDay : String
  modelRaises : Bool
  rawOutput : String
  loads : String → Option PyVal
  appendOk : Bool
  markOk : Bool

/-- The permalink built in `main` for a message id. -/
def gmailLink (msgId : String) : String :=
  "https://mail.google.com/mail/u/0/#inbox/" ++ msgId

/-- The observable outcome of one loop iteration of `main`: the updated
counters, whether the sheet append was invoked and with which rows, and
whether `mark_email_as_read` was invoked. -/
structure StepResult where
  counters : Counters
  appendInvoked : Bool
  rowsSent : List (List String)
  markInvoked : Bool
deriving Repr

/-- One iteration of the per-message loop of `main`: fetch, re-check
the unread label, extract content, call the model and parser, append to
the sheet, and mark as read only on append success (and only when the
mark-after-processing flag is set); any raise inside the iteration is
caught and counted as a failure. -/
def processMessage (markAfter : Bool) (env : MsgEnv) (c : Counters) : StepResult :=
  if env.fetchRaises then
    ⟨{ c with failed_processed := c.failed_processed + 1 }, false, [], false⟩
  else if !env.unread then
    ⟨c, false, [], false⟩
  else if env.extractRaises then
    ⟨{ c with failed_processed := c.failed_processed + 1 }, false, [], false⟩
  else if env.content = "" then
    ⟨{ c with failed_processed := c.failed_processed + 1 }, false, [], false⟩
  else if env.modelRaises then
    ⟨{ c with failed_processed := c.failed_processed + 1 }, false, [], false⟩
  else
    let parsed := parse_ollama_response env.loads env.rawOutput
    let email_data : EmailData :=
      ⟨parsed.contacts, parsed.summary, parsed.assistance_type, env.sentDay, gmailLink env.msgId⟩
    let rows := append_single_email_to_sheet_values email_data
    if env.appendOk then
      let cOk := { c with sheet_updates_successful := c.sheet_updates_successful + 1,
                          successful_processed := c.successful_processed + 1 }
      if markAfter then
        let cMark := if env.markOk then
            { cOk with emails_marked_read := cOk.emails_marked_read + 1 }
          else cOk
        ⟨cMark, true, rows, true⟩
      else
        ⟨cOk, true, rows, false⟩
    else
      ⟨{ c with sheet_updates_failed := c.sheet_updates_failed + 1 }, true, rows, false⟩

/-- The whole processing loop of `main` over the listed messages,
starting from zeroed counters. -/
def runMain (envs : List MsgEnv) : Counters :=
  envs.foldl (fun c e => (processMessage MARK_AS_READ_AFTER_PROCESSING e c).counters)
    ⟨0, 0, 0, 0, 0⟩

/-- All-zero counters, the initial state of `main`. -/
def zeroCounters : Counters := ⟨0, 0, 0, 0, 0⟩

/-- A sample environment whose sheet append fails. -/
def sampleEnvAppendFail : MsgEnv :=
  ⟨"m1", false, true, false, "body text", "2024-12-25 10:30:00", false, "raw",
   fun _ => none, false, false⟩

/-- A sample environment whose message is no longer unread at fetch
time. -/
def sampleEnvReadAlready : MsgEnv :=
  ⟨"m2", false, false, false, "body text", "2024-12-25 10:30:00", false, "raw",
   fun _ => none, true, true⟩

/-- A sample environment whose message has no extractable text
content. -/
def sampleEnvNoContent : MsgEnv :=
  ⟨"m3", false, true, false, "", "2024-12-25 10:30:00", false, "raw",
   fun _ => none, true, true⟩

/-- Claim C5: the phone formatter strips non-digits and formats by
digit count: 10 digits as (AAA) BBB-CCCC, 11 digits with a leading 1 by
dropping that digit, 7 digits as AAA-BBBB; any other digit count
returns the trimmed original guarded only against formula injection,
and empty input returns the empty string. -/
theorem claim_C5_format_phone_number_cases (p : String) :
    format_phone_number "" = "" ∧
    (p ≠ "" → (digitsOf p).length = 10 →
      format_phone_number p =
        "(" ++ String.mk ((digitsOf p).take 3) ++ ") "
          ++ String.mk (((digitsOf p).drop 3).take 3)
          ++ "-" ++ String.mk ((digitsOf p).drop 6)) ∧
    (p ≠ "" → (digitsOf p).length = 11 → (digitsOf p).head? = some '1' →
      format_phone_number p =
        "(" ++ String.mk (((digitsOf p).drop 1).take 3) ++ ") "
          ++ String.mk ((((digitsOf p).drop 1).drop 3).take 3)
          ++ "-" ++ String.mk (((digitsOf p).drop 1).drop 6)) ∧
    (p ≠ "" → (digitsOf p).length = 7 →
      format_phone_number p =
        String.mk ((digitsOf p).take 3) ++ "-" ++ String.mk ((digitsOf p).drop 3)) ∧
    (p ≠ "" → ¬ (digitsOf p).length = 10 →
      ¬ ((digitsOf p).length = 11 ∧ (digitsOf p).head? = some '1') →
      ¬ (digitsOf p).length = 7 →
      format_phone_number p = sanitizeCell (pyStrip p)) := by
  refine ⟨rfl, ?_, ?_, ?_, ?_⟩
  · intro hp h10
    unfold format_phone_number
    rw [if_neg hp, if_pos h10]
  · intro hp h11 hh
    unfold format_phone_number
    rw [if_neg hp, if_neg (by omega), if_pos ⟨h11, hh⟩]
  · intro hp h7
    unfold format_phone_number
    rw [if_neg hp, if_neg (by omega), if_neg (by omega), if_pos h7]
  · intro hp h10 h11 h7
    unfold format_phone_number
    rw [if_neg hp, if_neg h10, if_neg h11, if_neg h7]

/-- Witness for claim C5 at the concrete input 1234567890. -/
theorem claim_C5_format_phone_number_cases_witness :
    ("1234567890" : String) ≠ "" ∧ (digitsOf "1234567890").length = 10 ∧
    format_phone_number "1234567890" =
      "(" ++ String.mk ((digitsOf "1234567890").take 3) ++ ") "
        ++ String.mk (((digitsOf "1234567890").drop 3).take 3)
        ++ "-" ++ String.mk ((digitsOf "1234567890").drop 6) :=
  ⟨by decide, by decide,
    (claim_C5_format_phone_number_cases "1234567890").2.1 (by decide) (by decide)⟩

/-- Counterexample to claim C6 as stated: on input abc the formatter
does not return the empty string; abc is non-empty with zero digits, so
the no-matching-rule branch returns the trimmed original unchanged. -/
theorem claim_C6_counterexample : format_phone_number "abc" ≠ "" := by decide

/-- Claim C6 (amended): the example mappings of the formatter, with the
abc example returning abc unchanged (zero digits fall under the
no-matching-rule branch, which keeps the trimmed original) rather than
the empty string. -/
theorem claim_C6_format_phone_number_examples :
    format_phone_number "1234567890" = "(123) 456-7890" ∧
    format_phone_number "11234567890" = "(123) 456-7890" ∧
    format_phone_number "1234567" = "123-4567" ∧
    format_phone_number "abc" = "abc" ∧
    format_phone_number "555123" = "555123" := by decide

/-- Claim C8: the message lister accumulates page contents while a
continuation token is present: three chained pages of 500, 500 and 200
identifiers with no token on the last page yield 1200 identifiers, and
an error on a later page stops pagination early, returning exactly the
identifiers accumulated so far. -/
theorem claim_C8_pagination_totality (a b c : List String) (t1 t2 : String)
    (rest : List PageResult)
    (ha : a.length = 500) (hb : b.length = 500) (hc : c.length = 200) :
    (get_all_unread_messages
      [PageResult.ok a (some t1), PageResult.ok b (some t2), PageResult.ok c none]).length
        = 1200 ∧
    get_all_unread_messages
      (PageResult.ok a (some t1) :: PageResult.ok b (some t2) :: PageResult.err :: rest)
        = a ++ b := by
  constructor
  · simp [get_all_unread_messages, getAllUnreadGo, ha, hb, hc]
  · simp [get_all_unread_messages, getAllUnreadGo]

/-- Witness for claim C8 on concrete pages of 500, 500 and 200
identifiers. -/
theorem claim_C8_pagination_totality_witness :
    (get_all_unread_messages
      [PageResult.ok (List.replicate 500 "m") (some "t1"),
       PageResult.ok (List.replicate 500 "m") (some "t2"),
       PageResult.ok (List.replicate 200 "m") none]).length = 1200 ∧
    get_all_unread_messages
      (PageResult.ok (List.replicate 500 "m") (some "t1")
        :: PageResult.ok (List.replicate 500 "m") (some "t2")
        :: PageResult.err :: [])
      = List.replicate 500 "m" ++ List.replicate 500 "m" :=
  claim_C8_pagination_totality (List.replicate 500 "m") (List.replicate 500 "m")
    (List.replicate 200 "m") "t1" "t2" []
    (by rw [List.length_replicate]) (by rw [List.length_replicate])
    (by rw [List.length_replicate])

/-- Any failure of the parsing attempt yields the fallback record. -/
theorem parse_ollama_response_of_attempt_none (loads : String → Option PyVal)
    (out : String) (h : parseAttempt loads out = none) :
    parse_ollama_response loads out = fallbackRecord out := by
  unfold parse_ollama_response
  rw [h]

/-- Claim C2: on every failure path — no brace-delimited JSON object,
a JSON parse failure, or any other raised error — the response parser
returns the fallback record, whose summary is the fixed parsing-failed
message carrying a 100-character prefix of the raw output, whose
contacts are empty, and whose assistance type is unknown. -/
theorem claim_C2_fallback_record (loads : String → Option PyVal) (out : String) :
    (extractJson out = none → parse_ollama_response loads out = fallbackRecord out) ∧
    (∀ js, extractJson out = some js → loads js = none →
      parse_ollama_response loads out = fallbackRecord out) ∧
    (parseAttempt loads out = none → parse_ollama_response loads out = fallbackRecord out) ∧
    (fallbackRecord out).summary = "Parsing failed - Raw output: " ++ pyTake out 100 ∧
    (fallbackRecord out).contacts = [] ∧
    (fallbackRecord out).assistance_type = "unknown" := by
  refine ⟨?_, ?_, parse_ollama_response_of_attempt_none loads out, rfl, rfl, rfl⟩
  · intro h
    apply parse_ollama_response_of_attempt_none
    unfold parseAttempt
    rw [h]
  · intro js hjs hl
    apply parse_ollama_response_of_attempt_none
    unfold parseAttempt
    rw [hjs]
    show (match loads js with
      | none => none
      | some v => recordOfDict v) = none
    rw [hl]

/-- Witness for claim C2 on raw output with no brace pair. -/
theorem claim_C2_fallback_record_witness :
    extractJson "no json here" = none ∧
    parse_ollama_response (fun _ => none) "no json here" = fallbackRecord "no json here" :=
  ⟨by decide, (claim_C2_fallback_record (fun _ => none) "no json here").1 (by decide)⟩

/-- The standardization step only ever produces one of the three enum
values. -/
theorem standardizeAssistance_mem (a : String) :
    standardizeAssistance a = "requesting" ∨ standardizeAssistance a = "providing" ∨
    standardizeAssistance a = "unknown" := by
  unfold standardizeAssistance
  by_cases h : (a == "requesting" || a == "providing") = true
  · rw [if_pos h]
    rcases Bool.or_eq_true_iff.mp h with h1 | h1
    · left; exact eq_of_beq h1
    · right; left; exact eq_of_beq h1
  · rw [if_neg h]
    by_cases h2 : requestingKeywords.any (fun w => hasSubstr a w) = true
    · rw [if_pos h2]; left; rfl
    · rw [if_neg h2]
      by_cases h3 : providingKeywords.any (fun w => hasSubstr a w) = true
      · rw [if_pos h3]; right; left; rfl
      · rw [if_neg h3]; right; right; rfl

/-- Every successful parse carries an assistance type produced by the
standardization step. -/
theorem parseAttempt_assistance_shape (loads : String → Option PyVal) (out : String)
    (r : ExtractionRecord) (h : parseAttempt loads out = some r) :
    ∃ a, r.assistance_type = standardizeAssistance a := by
  unfold parseAttempt at h
  cases hE : extractJson out with
  | none => rw [hE] at h; cases h
  | some js =>
    rw [hE] at h
    have h2 : (match loads js with
        | none => none
        | some v => recordOfDict v) = some r := h
    cases hL : loads js with
    | none => rw [hL] at h2; cases h2
    | some v =>
      rw [hL] at h2
      cases v with
      | dict kvs =>
        have h3 : (match asStr (pyGetD kvs "summary" (PyVal.str "No summary provided")),
              asStr (pyGetD kvs "assistance_type" (PyVal.str "unknown")) with
            | some s, some a =>
                some (⟨pyStrip s, cleanContacts (pyGetD kvs "contacts" (PyVal.list [])),
                      standardizeAssistance (pyLower (pyStrip a))⟩ : ExtractionRecord)
            | _, _ => none) = some r := h2
        cases hS : asStr (pyGetD kvs "summary" (PyVal.str "No summary provided")) with
        | none =>
          rw [hS] at h3
          cases hA : asStr (pyGetD kvs "assistance_type" (PyVal.str "unknown")) with
          | none =>
            rw [hA] at h3
            have h4 : (none : Option ExtractionRecord) = some r := h3
            cases h4
          | some a =>
            rw [hA] at h3
            have h4 : (none : Option ExtractionRecord) = some r := h3
            cases h4
        | some s =>
          rw [hS] at h3
          cases hA : asStr (pyGetD kvs "assistance_type" (PyVal.str "unknown")) with
          | none =>
            rw [hA] at h3
            have h4 : (none : Option ExtractionRecord) = some r := h3
            cases h4
          | some a =>
            rw [hA] at h3
            refine ⟨pyLower (pyStrip a), ?_⟩
            have h4 : some (⟨pyStrip s,
                cleanContacts (pyGetD kvs "contacts" (PyVal.list [])),
                standardizeAssistance (pyLower (pyStrip a))⟩ : ExtractionRecord) = some r := h3
            injection h4 with h5
            rw [← h5]
      | str s =>
        have h4 : (none : Option ExtractionRecord) = some r := h2
        cases h4
      | int n =>
        have h4 : (none : Option ExtractionRecord) = some r := h2
        cases h4
      | bool b =>
        have h4 : (none : Option ExtractionRecord) = some r := h2
        cases h4
      | null =>
        have h4 : (none : Option ExtractionRecord) = some r := h2
        cases h4
      | list xs =>
        have h4 : (none : Option ExtractionRecord) = some r := h2
        cases h4

/-- Claim C3: for every JSON oracle and raw output, the parsed record's
assistance type is one of requesting, providing or unknown; and the
standardization step maps a value that is not exactly requesting or
providing by keyword containment (requesting keywords, then providing
keywords, then unknown). -/
theorem claim_C3_assistance_type_enum (loads : String → Option PyVal) (out : String)
    (a : String) :
    ((parse_ollama_response loads out).assistance_type = "requesting" ∨
     (parse_ollama_response loads out).assistance_type = "providing" ∨
     (parse_ollama_response loads out).assistance_type = "unknown") ∧
    (¬ (a = "requesting" ∨ a = "providing") →
      (requestingKeywords.any (fun w => hasSubstr a w) = true →
        standardizeAssistance a = "requesting") ∧
      (requestingKeywords.any (fun w => hasSubstr a w) = false →
        providingKeywords.any (fun w => hasSubstr a w) = true →
        standardizeAssistance a = "providing") ∧
      (requestingKeywords.any (fun w => hasSubstr a w) = false →
        providingKeywords.any (fun w => hasSubstr a w) = false →
        standardizeAssistance a = "unknown")) := by
  constructor
  · unfold parse_ollama_response
    cases h : parseAttempt loads out with
    | none => right; right; rfl
    | some r =>
      obtain ⟨b, hb⟩ := parseAttempt_assistance_shape loads out r h
      show r.assistance_type = "requesting" ∨ r.assistance_type = "providing" ∨
        r.assistance_type = "unknown"
      rw [hb]
      exact standardizeAssistance_mem b
  · intro hne
    have hb : (a == "requesting" || a == "providing") = false := by
      simp only [Bool.or_eq_false_iff, beq_eq_false_iff_ne, ne_eq]
      exact ⟨fun h => hne (Or.inl h), fun h => hne (Or.inr h)⟩
    refine ⟨?_, ?_, ?_⟩
    · intro hr; simp [standardizeAssistance, hb, hr]
    · intro hr hp; simp [standardizeAssistance, hb, hr, hp]
    · intro hr hp; simp [standardizeAssistance, hb, hr, hp]

/-- Witness for claim C3 at a concrete oracle, raw output and raw
assistance value. -/
theorem claim_C3_assistance_type_enum_witness :
    ((parse_ollama_response (fun _ => none) "x").assistance_type = "requesting" ∨
     (parse_ollama_response (fun _ => none) "x").assistance_type = "providing" ∨
     (parse_ollama_response (fun _ => none) "x").assistance_type = "unknown") ∧
    standardizeAssistance "maybe" = "unknown" := by
  have h := claim_C3_assistance_type_enum (fun _ => none) "x" "maybe"
  exact ⟨h.1, (h.2 (by decide)).2.2 (by decide) (by decide)⟩

/-- Claim C9: a raw assistance value that is not exactly requesting or
providing after trimming and lowercasing, and that contains both a
requesting keyword and a providing keyword, is classified as
requesting — the requesting keyword set is tested first.  The parser is
exercised through an oracle returning a JSON object whose
assistance_type field is that raw value. -/
theorem claim_C9_requesting_precedence (a : String)
    (h1 : ¬ (pyLower (pyStrip a) = "requesting" ∨ pyLower (pyStrip a) = "providing"))
    (h2 : requestingKeywords.any (fun w => hasSubstr (pyLower (pyStrip a)) w) = true)
    (h3 : providingKeywords.any (fun w => hasSubstr (pyLower (pyStrip a)) w) = true) :
    (parse_ollama_response
        (fun _ => some (PyVal.dict [("assistance_type", PyVal.str a)]))
        "\x7b\x7d").assistance_type = "requesting" ∧
    standardizeAssistance (pyLower (pyStrip a)) = "requesting" := by
  have hb : ((pyLower (pyStrip a)) == "requesting" || (pyLower (pyStrip a)) == "providing")
      = false := by
    simp only [Bool.or_eq_false_iff, beq_eq_false_iff_ne, ne_eq]
    exact ⟨fun h => h1 (Or.inl h), fun h => h1 (Or.inr h)⟩
  have hstd : standardizeAssistance (pyLower (pyStrip a)) = "requesting" := by
    simp [standardizeAssistance, hb, h2]
  have hp : parse_ollama_response
      (fun _ => some (PyVal.dict [("assistance_type", PyVal.str a)])) "\x7b\x7d"
      = ⟨"No summary provided", [], standardizeAssistance (pyLower (pyStrip a))⟩ := rfl
  rw [hp]
  exact ⟨hstd, hstd⟩

/-- Witness for claim C9 on the raw value need help, which contains the
requesting keyword need and the providing keyword help. -/
theorem claim_C9_requesting_precedence_witness :
    (parse_ollama_response
        (fun _ => some (PyVal.dict [("assistance_type", PyVal.str "need help")]))
        "\x7b\x7d").assistance_type = "requesting" ∧
    standardizeAssistance (pyLower (pyStrip "need help")) = "requesting" :=
  claim_C9_requesting_precedence "need help" (by decide) (by decide) (by decide)

/-- Claim C4: the row builder emits max(1, number of contacts) rows
in the fixed 7-field order Name, Email, Phone, Summary, AssistanceType,
SentDate, EmailLink; with zero contacts it emits one row with empty
Name, Email and Phone; with N contacts it emits the row for the i-th
contact at position i, and every row shares the record's summary,
assistance type, sent date and link. -/
theorem claim_C4_row_fanout (d : EmailData) :
    (append_single_email_to_sheet_values d).length = max 1 d.contacts.length ∧
    (d.contacts = [] →
      append_single_email_to_sheet_values d
        = [["", "", "", sanitizeCell d.summary, d.assistance_type, d.sent_day,
            d.email_link]]) ∧
    (∀ i ct, d.contacts.get? i = some ct →
      (append_single_email_to_sheet_values d).get? i
        = some [sanitizeCell (pyStrip ct.name), sanitizeCell (pyStrip ct.email),
                format_phone_number (pyStrip ct.phone), sanitizeCell d.summary,
                d.assistance_type, d.sent_day, d.email_link]) ∧
    (∀ r, r ∈ append_single_email_to_sheet_values d →
      r.length = 7 ∧ r.get? 3 = some (sanitizeCell d.summary) ∧
      r.get? 4 = some d.assistance_type ∧ r.get? 5 = some d.sent_day ∧
      r.get? 6 = some d.email_link) := by
  by_cases h : d.contacts.isEmpty
  · have hnil : d.contacts = [] := List.isEmpty_iff.mp h
    have hval : append_single_email_to_sheet_values d
        = [["", "", "", sanitizeCell d.summary, d.assistance_type, d.sent_day,
            d.email_link]] := by
      unfold append_single_email_to_sheet_values
      rw [h]
      rfl
    refine ⟨?_, fun _ => hval, ?_, ?_⟩
    · rw [hval, hnil]; rfl
    · intro i ct hct
      rw [hnil] at hct
      simp at hct
    · intro r hr
      rw [hval] at hr
      simp only [List.mem_singleton] at hr
      subst hr
      exact ⟨rfl, rfl, rfl, rfl, rfl⟩
  · have hne : d.contacts ≠ [] := fun hnil => h (by rw [hnil]; rfl)
    have hval : append_single_email_to_sheet_values d
        = d.contacts.map (fun ct =>
            [sanitizeCell (pyStrip ct.name), sanitizeCell (pyStrip ct.email),
             format_phone_number (pyStrip ct.phone), sanitizeCell d.summary,
             d.assistance_type, d.sent_day, d.email_link]) := by
      unfold append_single_email_to_sheet_values
      rw [Bool.not_eq_true] at h
      rw [h]
      rfl
    refine ⟨?_, fun hnil => absurd hnil hne, ?_, ?_⟩
    · rw [hval, List.length_map]
      have : 0 < d.contacts.length := List.length_pos.mpr hne
      omega
    · intro i ct hct
      rw [hval, List.get?_map, hct]
      rfl
    · intro r hr
      rw [hval] at hr
      obtain ⟨ct, _, hmap⟩ := List.mem_map.mp hr
      subst hmap
      exact ⟨rfl, rfl, rfl, rfl, rfl⟩

/-- Witness for claim C4 on a concrete record with one contact. -/
theorem claim_C4_row_fanout_witness :
    (append_single_email_to_sheet_values
        ⟨[⟨"Jane Doe", "jane@example.com", "5551234567"⟩], "Jane needs help",
         "requesting", "2024-12-25 10:30:00", "link"⟩).get? 0
      = some [sanitizeCell (pyStrip "Jane Doe"), sanitizeCell (pyStrip "jane@example.com"),
              format_phone_number (pyStrip "5551234567"), sanitizeCell "Jane needs help",
              "requesting", "2024-12-25 10:30:00", "link"] :=
  (claim_C4_row_fanout
      ⟨[⟨"Jane Doe", "jane@example.com", "5551234567"⟩], "Jane needs help",
       "requesting", "2024-12-25 10:30:00", "link"⟩).2.2.1 0
    ⟨"Jane Doe", "jane@example.com", "5551234567"⟩ (by rfl)

/-- A digit character is never a formula trigger. -/
theorem trigger_not_digit (c : Char) (h : c.isDigit = true) :
    formulaTriggers.contains c = false := by
  by_contra hne
  rw [Bool.not_eq_false] at hne
  have hmem : c ∈ (['=', '+', '-', '@'] : List Char) := by simpa [formulaTriggers] using hne
  fin_cases hmem <;> exact absurd h (by decide)

/-- The injection guard never outputs a value whose first character is
a formula trigger. -/
theorem startsWithTrigger_sanitizeCell (s : String) :
    startsWithTrigger (sanitizeCell s) = false := by
  unfold sanitizeCell
  by_cases h : startsWithTrigger s = true
  · rw [if_pos h]; rfl
  · rw [if_neg h]
    simpa using h

/-- The phone formatter never outputs a value whose first character is
a formula trigger: formatted numbers start with a parenthesis or a
digit, and the fallback branch is injection-guarded. -/
theorem startsWithTrigger_format_phone_number (p : String) :
    startsWithTrigger (format_phone_number p) = false := by
  unfold format_phone_number
  by_cases h0 : p = ""
  · rw [if_pos h0]; rfl
  rw [if_neg h0]
  by_cases h10 : (digitsOf p).length = 10
  · rw [if_pos h10]; rfl
  rw [if_neg h10]
  by_cases h11 : (digitsOf p).length = 11 ∧ (digitsOf p).head? = some '1'
  · rw [if_pos h11]; rfl
  rw [if_neg h11]
  by_cases h7 : (digitsOf p).length = 7
  · rw [if_pos h7]
    cases h7l : digitsOf p with
    | nil => rw [h7l] at h7; simp at h7
    | cons c cs =>
      have hmem : c ∈ digitsOf p := by rw [h7l]; exact List.mem_cons_self c cs
      have hc : c.isDigit = true := List.of_mem_filter hmem
      show formulaTriggers.contains c = false
      exact trigger_not_digit c hc
  · rw [if_neg h7]
    exact startsWithTrigger_sanitizeCell (pyStrip p)

/-- Claim C7: every name, email and summary value placed into a row is
the injection guard applied to the (trimmed) field — a value starting
with one of the four trigger characters is stored with an apostrophe
prepended, any other value is stored unchanged — and the phone value,
post-formatting, never starts with a trigger character either. -/
theorem claim_C7_injection_guard (d : EmailData) (ct : Contact) (h : ct ∈ d.contacts) :
    ([sanitizeCell (pyStrip ct.name), sanitizeCell (pyStrip ct.email),
      format_phone_number (pyStrip ct.phone), sanitizeCell d.summary,
      d.assistance_type, d.sent_day, d.email_link]
        ∈ append_single_email_to_sheet_values d) ∧
    (∀ s, startsWithTrigger s = true → sanitizeCell s = "\x27" ++ s) ∧
    (∀ s, startsWithTrigger s = false → sanitizeCell s = s) ∧
    (∀ p, startsWithTrigger (format_phone_number p) = false) ∧
    (∀ s, startsWithTrigger (sanitizeCell s) = false) := by
  refine ⟨?_, ?_, ?_, startsWithTrigger_format_phone_number, startsWithTrigger_sanitizeCell⟩
  · have hne : ¬ d.contacts.isEmpty = true := by
      cases hc : d.contacts with
      | nil => rw [hc] at h; cases h
      | cons x xs => simp
    unfold append_single_email_to_sheet_values
    rw [Bool.not_eq_true] at hne
    rw [hne]
    show _ ∈ d.contacts.map _
    exact List.mem_map.mpr ⟨ct, h, rfl⟩
  · intro s hs
    unfold sanitizeCell
    rw [if_pos hs]
  · intro s hs
    unfold sanitizeCell
    rw [if_neg (by simp [hs])]

/-- Witness for claim C7 on a record with one contact whose fields
start with trigger characters. -/
theorem claim_C7_injection_guard_witness :
    ([sanitizeCell (pyStrip "=SUM(A1)"), sanitizeCell (pyStrip "+evil@x.com"),
      format_phone_number (pyStrip "@call me"), sanitizeCell "-summary",
      "unknown", "2024-12-25 10:30:00", "link"]
        ∈ append_single_email_to_sheet_values
            ⟨[⟨"=SUM(A1)", "+evil@x.com", "@call me"⟩], "-summary", "unknown",
             "2024-12-25 10:30:00", "link"⟩) ∧
    sanitizeCell "=SUM(A1)" = "\x27" ++ "=SUM(A1)" ∧
    sanitizeCell "plain" = "plain" :=
  have h := claim_C7_injection_guard
    ⟨[⟨"=SUM(A1)", "+evil@x.com", "@call me"⟩], "-summary", "unknown",
     "2024-12-25 10:30:00", "link"⟩
    ⟨"=SUM(A1)", "+evil@x.com", "@call me"⟩ (by simp)
  ⟨h.1, h.2.1 "=SUM(A1)" (by decide), h.2.2.1 "plain" (by decide)⟩

/-- Claim C1: for a message that reaches the append step (fetch
succeeded, still unread, non-empty content, model call succeeded), the
read-state transition is invoked if and only if the sheet append for
that message returned success; on append failure the orchestrator
increments sheet_updates_failed, does not invoke the transition, and
leaves emails_marked_read unchanged, so the message stays unread. -/
theorem claim_C1_read_state_gate (env : MsgEnv) (c : Counters)
    (h1 : env.fetchRaises = false) (h2 : env.unread = true)
    (h3 : env.extractRaises = false) (h4 : env.content ≠ "")
    (h5 : env.modelRaises = false) :
    ((processMessage MARK_AS_READ_AFTER_PROCESSING env c).markInvoked = true
      ↔ env.appendOk = true) ∧
    (env.appendOk = false →
      (processMessage MARK_AS_READ_AFTER_PROCESSING env c).counters.sheet_updates_failed
          = c.sheet_updates_failed + 1 ∧
      (processMessage MARK_AS_READ_AFTER_PROCESSING env c).markInvoked = false ∧
      (processMessage MARK_AS_READ_AFTER_PROCESSING env c).counters.emails_marked_read
          = c.emails_marked_read) := by
  cases hA : env.appendOk <;>
    simp [processMessage, MARK_AS_READ_AFTER_PROCESSING, h1, h2, h3, h4, h5, hA]

/-- Witness for claim C1 on a concrete environment whose sheet append
fails. -/
theorem claim_C1_read_state_gate_witness :
    ((processMessage MARK_AS_READ_AFTER_PROCESSING sampleEnvAppendFail
        zeroCounters).markInvoked = true
      ↔ sampleEnvAppendFail.appendOk = true) ∧
    (sampleEnvAppendFail.appendOk = false →
      (processMessage MARK_AS_READ_AFTER_PROCESSING sampleEnvAppendFail
          zeroCounters).counters.sheet_updates_failed
        = zeroCounters.sheet_updates_failed + 1 ∧
      (processMessage MARK_AS_READ_AFTER_PROCESSING sampleEnvAppendFail
          zeroCounters).markInvoked = false ∧
      (processMessage MARK_AS_READ_AFTER_PROCESSING sampleEnvAppendFail
          zeroCounters).counters.emails_marked_read
        = zeroCounters.emails_marked_read) :=
  claim_C1_read_state_gate sampleEnvAppendFail zeroCounters rfl rfl rfl (by decide) rfl

/-- Claim C10: a message that is no longer unread at fetch time is
skipped with all five counters unchanged, while a skip for empty
extracted content increments failed_processed by exactly one and leaves
the other four counters unchanged. -/
theorem claim_C10_skip_frame (env : MsgEnv) (c : Counters)
    (h1 : env.fetchRaises = false) :
    (env.unread = false →
      (processMessage MARK_AS_READ_AFTER_PROCESSING env c).counters = c) ∧
    (env.unread = true → env.extractRaises = false → env.content = "" →
      (processMessage MARK_AS_READ_AFTER_PROCESSING env c).counters.failed_processed
          = c.failed_processed + 1 ∧
      (processMessage MARK_AS_READ_AFTER_PROCESSING env c).counters.successful_processed
          = c.successful_processed ∧
      (processMessage MARK_AS_READ_AFTER_PROCESSING env c).counters.emails_marked_read
          = c.emails_marked_read ∧
      (processMessage MARK_AS_READ_AFTER_PROCESSING env c).counters.sheet_updates_successful
          = c.sheet_updates_successful ∧
      (processMessage MARK_AS_READ_AFTER_PROCESSING env c).counters.sheet_updates_failed
          = c.sheet_updates_failed) := by
  constructor
  · intro h2
    simp [processMessage, h1, h2]
  · intro h2 h3 h4
    simp [processMessage, h1, h2, h3, h4]

/-- Witness for claim C10 on concrete environments: one message read by
another actor before fetch, one message with no text content. -/
theorem claim_C10_skip_frame_witness :
    (processMessage MARK_AS_READ_AFTER_PROCESSING sampleEnvReadAlready
        zeroCounters).counters = zeroCounters ∧
    (processMessage MARK_AS_READ_AFTER_PROCESSING sampleEnvNoContent
        zeroCounters).counters.failed_processed = zeroCounters.failed_processed + 1 ∧
    (processMessage MARK_AS_READ_AFTER_PROCESSING sampleEnvNoContent
        zeroCounters).counters.successful_processed = zeroCounters.successful_processed ∧
    (processMessage MARK_AS_READ_AFTER_PROCESSING sampleEnvNoContent
        zeroCounters).counters.emails_marked_read = zeroCounters.emails_marked_read ∧
    (processMessage MARK_AS_READ_AFTER_PROCESSING sampleEnvNoContent
        zeroCounters).counters.sheet_updates_successful
      = zeroCounters.sheet_updates_successful ∧
    (processMessage MARK_AS_READ_AFTER_PROCESSING sampleEnvNoContent
        zeroCounters).counters.sheet_updates_failed = zeroCounters.sheet_updates_failed :=
  ⟨(claim_C10_skip_frame sampleEnvReadAlready zeroCounters rfl).1 rfl,
   (claim_C10_skip_frame sampleEnvNoContent zeroCounters rfl).2 rfl rfl rfl⟩
